import Mathlib

/-!
Shallow embedding of the lawz zero-knowledge circuits (circom 2.0) and proofs
about them.

The circuits are arithmetic constraint systems over the BN254 scalar field.
Every signal is a field element; `<==` both assigns a value (computed by the
witness generator) and adds an equality constraint; `<--` only assigns a hint,
adding no constraint, so a hinted signal is a free variable of the constraint
system; `===` adds a constraint without assigning.

We model field elements as `Nat` with explicit `% p` arithmetic.  Signals
assigned with `<==` become Lean functions of the circuit inputs (and of the
hinted signals they depend on); signals assigned with `<--` become extra
arguments of those functions; the satisfiability of the whole constraint
system becomes a decidable predicate `Valid`.

The circomlib components used by the circuits have the following semantics
(from circomlib/circuits/comparators.circom):

* `Num2Bits(k)` constrains its input to be a sum of `k` boolean signals
  weighted by powers of two; it is satisfiable iff the input, as a natural
  number below `p`, is `< 2^k`, and then the bits are the unique binary
  digits of that number.
* `LessThan(n)` feeds `in[0] + 2^n - in[1]` (field arithmetic) to a
  `Num2Bits(n+1)` and outputs `1 - bit n`.  So it is satisfiable iff that
  field value is `< 2^(n+1)`, and its output is `1 - (value / 2^n)`.
* `LessEqThan(n) a b = LessThan(n) a (b+1)`,
  `GreaterThan(n) a b = LessThan(n) b a`,
  `GreaterEqThan(n) a b = LessThan(n) b (a+1)` (all `+1` in the field).
* `IsZero` outputs `1` on the zero field element and `0` otherwise (the
  output is forced because `p` is prime), and is always satisfiable.
* `IsEqual a b = IsZero (b - a)`.

Division by a constant (`x / c` in circom) is field multiplication by the
modular inverse of `c`.
-/

namespace Circom

/-- The BN254 scalar field prime, the default field of circom 2.0. -/
def p : Nat := 21888242871839275222246405745257275088548364400416034343698204186575808495617

/-- Field addition. -/
def fadd (a b : Nat) : Nat := (a + b) % p

/-- Field multiplication. -/
def fmul (a b : Nat) : Nat := (a * b) % p

/-- Field subtraction. -/
def fsub (a b : Nat) : Nat := (a % p + (p - b % p)) % p

/-- Inverse of 2 in the field (for the circom expression `x / 2`). -/
def inv2 : Nat := 10944121435919637611123202872628637544274182200208017171849102093287904247809

/-- Inverse of 10 in the field (for the circom expression `x / 10`). -/
def inv10 : Nat := 15321770010287492655572484021680092561983855080291224040588742930603065946932

/-- Inverse of 15 in the field (for the circom expression `x / 15`). -/
def inv15 : Nat := 2918432382911903362966187432700970011806448586722137912493093891543441132749

/-- Inverse of 100 in the field (for the circom expression `x / 100`). -/
def inv100 : Nat := 10287474149764459354455810700270919291617731268195536141538155967690629992940

/-- The field value fed by `LessThan(n)` to its internal `Num2Bits(n+1)`. -/
def ltSig (n a b : Nat) : Nat := fsub (fadd a (2 ^ n)) b

/-- Satisfiability condition of `LessThan(n)`: the `Num2Bits(n+1)` input must
fit in `n+1` bits. -/
def ltSat (n a b : Nat) : Prop := ltSig n a b < 2 ^ (n + 1)

instance (n a b : Nat) : Decidable (ltSat n a b) :=
  inferInstanceAs (Decidable (_ < _))

/-- Output of `LessThan(n)`: one minus the top bit of the `Num2Bits` input. -/
def ltOut (n a b : Nat) : Nat := 1 - ltSig n a b / 2 ^ n

/-- Output of `LessEqThan(n)`. -/
def leqOut (n a b : Nat) : Nat := ltOut n a (fadd b 1)

/-- Satisfiability condition of `LessEqThan(n)`. -/
def leqSat (n a b : Nat) : Prop := ltSat n a (fadd b 1)

instance (n a b : Nat) : Decidable (leqSat n a b) :=
  inferInstanceAs (Decidable (ltSat _ _ _))

/-- Output of `GreaterThan(n)`. -/
def gtOut (n a b : Nat) : Nat := ltOut n b a

/-- Satisfiability condition of `GreaterThan(n)`. -/
def gtSat (n a b : Nat) : Prop := ltSat n b a

instance (n a b : Nat) : Decidable (gtSat n a b) :=
  inferInstanceAs (Decidable (ltSat _ _ _))

/-- Output of `GreaterEqThan(n)`. -/
def geqOut (n a b : Nat) : Nat := ltOut n b (fadd a 1)

/-- Satisfiability condition of `GreaterEqThan(n)`. -/
def geqSat (n a b : Nat) : Prop := ltSat n b (fadd a 1)

instance (n a b : Nat) : Decidable (geqSat n a b) :=
  inferInstanceAs (Decidable (ltSat _ _ _))

/-- Output of `IsZero` (forced, since `p` is prime; always satisfiable). -/
def isZeroOut (a : Nat) : Nat := if a % p = 0 then 1 else 0

/-- Output of `IsEqual` (always satisfiable). -/
def isEqualOut (a b : Nat) : Nat := isZeroOut (fsub b a)

theorem p_large : 2 ^ 71 < p := by decide

theorem fadd_small {a b : Nat} (h : a + b < p) : fadd a b = a + b :=
  Nat.mod_eq_of_lt h

theorem fmul_small {a b : Nat} (h : a * b < p) : fmul a b = a * b :=
  Nat.mod_eq_of_lt h

theorem fsub_of_le {a b : Nat} (hba : b ≤ a) (ha : a < p) : fsub a b = a - b := by
  have hb : b < p := lt_of_le_of_lt hba ha
  unfold fsub
  rw [Nat.mod_eq_of_lt ha, Nat.mod_eq_of_lt hb]
  have h1 : a + (p - b) = (a - b) + p := by omega
  rw [h1, Nat.add_mod_right, Nat.mod_eq_of_lt (by omega)]

theorem fsub_of_lt {a b : Nat} (hab : a < b) (hb : b < p) : fsub a b = p - (b - a) := by
  have ha : a < p := lt_trans hab hb
  unfold fsub
  rw [Nat.mod_eq_of_lt ha, Nat.mod_eq_of_lt hb]
  rw [Nat.mod_eq_of_lt (by omega)]
  omega

theorem fsub_eq_zero_iff {a b : Nat} (ha : a < p) (hb : b < p) :
    fsub a b = 0 ↔ a = b := by
  rcases Nat.lt_or_ge a b with h | h
  · rw [fsub_of_lt h hb]; omega
  · rw [fsub_of_le h ha]; omega

theorem ltSig_eq {a b : Nat} (ha : a < 2 ^ 64) (hb : b ≤ 2 ^ 64) :
    ltSig 64 a b = a + 2 ^ 64 - b := by
  unfold ltSig
  have h1 : fadd a (2 ^ 64) = a + 2 ^ 64 :=
    fadd_small (by have := p_large; omega)
  rw [h1, fsub_of_le (by omega) (by have := p_large; omega)]

theorem ltSat_of {a b : Nat} (ha : a < 2 ^ 64) (hb : b ≤ 2 ^ 64) : ltSat 64 a b := by
  unfold ltSat
  rw [ltSig_eq ha hb]
  omega

theorem ltOut_eq {a b : Nat} (ha : a < 2 ^ 64) (hb : b ≤ 2 ^ 64) :
    ltOut 64 a b = if a < b then 1 else 0 := by
  unfold ltOut
  rw [ltSig_eq ha hb]
  rcases Nat.lt_or_ge a b with h | h
  · rw [if_pos h, Nat.div_eq_of_lt (by omega)]
  · rw [if_neg (by omega)]
    have h1 : a + 2 ^ 64 - b = (a - b) + 2 ^ 64 := by omega
    rw [h1, Nat.add_div_right _ (by norm_num), Nat.div_eq_of_lt (by omega)]

theorem geqOut_eq {a b : Nat} (ha : a < 2 ^ 64) (hb : b < 2 ^ 64) :
    geqOut 64 a b = if b ≤ a then 1 else 0 := by
  unfold geqOut
  have h1 : fadd a 1 = a + 1 := fadd_small (by have := p_large; omega)
  rw [h1, ltOut_eq hb (by omega)]
  rcases Nat.lt_or_ge a b with h | h
  · rw [if_neg (by omega), if_neg (by omega)]
  · rw [if_pos (by omega), if_pos (by omega)]

theorem geqSat_of {a b : Nat} (ha : a < 2 ^ 64) (hb : b < 2 ^ 64) : geqSat 64 a b := by
  unfold geqSat
  have h1 : fadd a 1 = a + 1 := fadd_small (by have := p_large; omega)
  rw [h1]
  exact ltSat_of hb (by omega)

theorem leqOut_eq {a b : Nat} (ha : a < 2 ^ 64) (hb : b < 2 ^ 64) :
    leqOut 64 a b = if a ≤ b then 1 else 0 := by
  unfold leqOut
  have h1 : fadd b 1 = b + 1 := fadd_small (by have := p_large; omega)
  rw [h1, ltOut_eq ha (by omega)]
  rcases Nat.lt_or_ge b a with h | h
  · rw [if_neg (by omega), if_neg (by omega)]
  · rw [if_pos (by omega), if_pos (by omega)]

theorem leqSat_of {a b : Nat} (ha : a < 2 ^ 64) (hb : b < 2 ^ 64) : leqSat 64 a b := by
  unfold leqSat
  have h1 : fadd b 1 = b + 1 := fadd_small (by have := p_large; omega)
  rw [h1]
  exact ltSat_of ha (by omega)

theorem hundred_inv100 : (100 * inv100) % p = 1 := by decide

/-- If a field division by 100 lands in the 64-bit comparator range, the
division was exact: the dividend is 100 times the result. -/
theorem fmul_inv100_exact {x : Nat} (hx : x < p) (h : fmul x inv100 < 2 ^ 64) :
    100 * fmul x inv100 = x := by
  have key : (100 * fmul x inv100) % p = x := by
    unfold fmul
    rw [Nat.mul_mod, Nat.mod_mod_of_dvd _ (dvd_refl p), ← Nat.mul_mod]
    have h1 : 100 * (x * inv100) = x * (100 * inv100) := by ring
    rw [h1, Nat.mul_mod, hundred_inv100, Nat.mod_eq_of_lt hx, Nat.mul_one,
      Nat.mod_eq_of_lt hx]
  have hlt : 100 * fmul x inv100 < p := by
    have := p_large
    omega
  rw [Nat.mod_eq_of_lt hlt] at key
  exact key

theorem fmul_zero_left (a : Nat) : fmul 0 a = 0 := by
  unfold fmul
  simp

theorem fmul_zero_right (a : Nat) : fmul a 0 = 0 := by
  unfold fmul
  simp

theorem fmul_one_left {a : Nat} (ha : a < p) : fmul 1 a = a := by
  unfold fmul
  rw [Nat.one_mul, Nat.mod_eq_of_lt ha]

theorem fmul_one_right {a : Nat} (ha : a < p) : fmul a 1 = a := by
  unfold fmul
  rw [Nat.mul_one, Nat.mod_eq_of_lt ha]

theorem fsub_one_zero : fsub 1 0 = 1 := by decide

theorem fsub_one_one : fsub 1 1 = 0 := by decide

theorem fadd_zero_left {a : Nat} (ha : a < p) : fadd 0 a = a := by
  unfold fadd
  rw [Nat.zero_add, Nat.mod_eq_of_lt ha]

theorem fadd_zero_right {a : Nat} (ha : a < p) : fadd a 0 = a := by
  unfold fadd
  rw [Nat.add_zero, Nat.mod_eq_of_lt ha]

end Circom

open Circom

/-!
Full-bracket `TaxCalculation` variant
(`src/unnamed/part_000`, first template, lines 15-174).
The only hinted signal is `taxRate` (line 148); every other signal is
assigned with `<==`.  The bracket machinery depends only on `taxableIncome`,
so those signals are defined as functions of it.
-/

namespace TaxFull

structure Inputs where
  income : Nat
  totalDeductions : Nat
  dependents : Nat
  filingStatus : Nat

/-- All circuit inputs are field elements. -/
def Wf (i : Inputs) : Prop :=
  i.income < p ∧ i.totalDeductions < p ∧ i.dependents < p ∧ i.filingStatus < p

instance (i : Inputs) : Decidable (Wf i) :=
  inferInstanceAs (Decidable (_ ∧ _ ∧ _ ∧ _))

def bracket1Limit : Nat := 60000000
def bracket2Limit : Nat := 120000000
def bracket3Limit : Nat := 240000000
def bracket4Limit : Nat := 360000000

def taxableIncome (i : Inputs) : Nat := fsub i.income i.totalDeductions

def inBracket1_out (t : Nat) : Nat := ltOut 64 t bracket1Limit
def inBracket2_out (t : Nat) : Nat := ltOut 64 t bracket2Limit
def inBracket3_out (t : Nat) : Nat := ltOut 64 t bracket3Limit
def inBracket4_out (t : Nat) : Nat := ltOut 64 t bracket4Limit
def b1Check_out (t : Nat) : Nat := ltOut 64 t bracket1Limit
def b2Check_out (t : Nat) : Nat := ltOut 64 t bracket2Limit
def b3Check_out (t : Nat) : Nat := ltOut 64 t bracket3Limit

def bracket1Amount (t : Nat) : Nat :=
  fadd (fmul (b1Check_out t) t) (fmul (fsub 1 (b1Check_out t)) bracket1Limit)

def excessOverB1 (t : Nat) : Nat := fsub t bracket1Limit

def b2Taxable (t : Nat) : Nat := fmul (excessOverB1 t) (fsub 1 (b1Check_out t))

def bracket2Amount (t : Nat) : Nat :=
  fadd (fmul (b2Check_out t) (b2Taxable t))
    (fmul (fsub 1 (b2Check_out t)) (bracket2Limit - bracket1Limit))

def excessOverB2 (t : Nat) : Nat := fsub t bracket2Limit

def b3Taxable (t : Nat) : Nat := fmul (excessOverB2 t) (fsub 1 (b2Check_out t))

def bracket3Amount (t : Nat) : Nat :=
  fadd (fmul (b3Check_out t) (b3Taxable t))
    (fmul (fsub 1 (b3Check_out t)) (bracket3Limit - bracket2Limit))

def excessOverB3 (t : Nat) : Nat := fsub t bracket3Limit

def b4Taxable (t : Nat) : Nat := fmul (excessOverB3 t) (fsub 1 (b3Check_out t))

def bracket4Amount (t : Nat) : Nat :=
  fadd (fmul (inBracket4_out t) (b4Taxable t))
    (fmul (fsub 1 (inBracket4_out t)) (bracket4Limit - bracket3Limit))

def excessOverB4 (t : Nat) : Nat := fsub t bracket4Limit

def b5Taxable (t : Nat) : Nat := fmul (excessOverB4 t) (fsub 1 (inBracket4_out t))

def bracket5Amount (t : Nat) : Nat := b5Taxable t

def tax1 (t : Nat) : Nat := fmul (fmul (bracket1Amount t) 0) inv100
def tax2 (t : Nat) : Nat := fmul (fmul (bracket2Amount t) 5) inv100
def tax3 (t : Nat) : Nat := fmul (fmul (bracket3Amount t) 15) inv100
def tax4 (t : Nat) : Nat := fmul (fmul (bracket4Amount t) 20) inv100
def tax5 (t : Nat) : Nat := fmul (fmul (bracket5Amount t) 35) inv100

def baseTax (t : Nat) : Nat :=
  fadd (fadd (fadd (fadd (tax1 t) (tax2 t)) (tax3 t)) (tax4 t)) (tax5 t)

/-- The expression of the `taxRate <--` hint (lines 148-151), the value the
witness generator assigns; the constraint system never enforces it. -/
def taxRateHint (t : Nat) : Nat :=
  if t < bracket1Limit then 0
  else if t < bracket2Limit then 5
  else if t < bracket3Limit then 15
  else if t < bracket4Limit then 20
  else 35

def dependentCredit (i : Inputs) : Nat := fmul i.dependents 1000000

def taxGtCredit_out (i : Inputs) : Nat :=
  geqOut 64 (baseTax (taxableIncome i)) (dependentCredit i)

def finalTax (i : Inputs) : Nat :=
  fmul (taxGtCredit_out i) (fsub (baseTax (taxableIncome i)) (dependentCredit i))

def finalGtZero_out (i : Inputs) : Nat := geqOut 64 (finalTax i) 0

def taxOwed (i : Inputs) : Nat := finalTax i

/-- Output `taxBracket <== taxRate`; `taxRate` is a free hinted signal. -/
def taxBracket (taxRate : Nat) : Nat := taxRate

def isValid (i : Inputs) : Nat := finalGtZero_out i

/-- Satisfiability of the whole constraint system of the full-bracket
variant: well-formed field elements, the `Num2Bits` range conditions of
every comparator component, and the single `===` constraint
`gtZero.out === 1`. -/
def Valid (i : Inputs) (taxRate : Nat) : Prop :=
  Wf i ∧ taxRate < p ∧
  geqSat 64 (taxableIncome i) 0 ∧
  geqOut 64 (taxableIncome i) 0 = 1 ∧
  ltSat 64 (taxableIncome i) bracket1Limit ∧
  ltSat 64 (taxableIncome i) bracket2Limit ∧
  ltSat 64 (taxableIncome i) bracket3Limit ∧
  ltSat 64 (taxableIncome i) bracket4Limit ∧
  geqSat 64 (baseTax (taxableIncome i)) (dependentCredit i) ∧
  geqSat 64 (finalTax i) 0

instance (i : Inputs) (taxRate : Nat) : Decidable (Valid i taxRate) :=
  inferInstanceAs (Decidable (_ ∧ _ ∧ _ ∧ _ ∧ _ ∧ _ ∧ _ ∧ _ ∧ _ ∧ _))

end TaxFull

/-!
Simplified `TaxCalculation` variant
(`src/unnamed/part_000`, second template, lines 189-277).
Here `baseTax <== taxableIncome * taxRate / 100` applies the single hinted
rate to the whole taxable income, with no per-bracket decomposition.
-/

namespace TaxSimple

structure Inputs where
  income : Nat
  totalDeductions : Nat
  dependents : Nat
  filingStatus : Nat

def Wf (i : Inputs) : Prop :=
  i.income < p ∧ i.totalDeductions < p ∧ i.dependents < p ∧ i.filingStatus < p

instance (i : Inputs) : Decidable (Wf i) :=
  inferInstanceAs (Decidable (_ ∧ _ ∧ _ ∧ _))

def taxableIncome (i : Inputs) : Nat := fsub i.income i.totalDeductions

/-- The expression of the `taxRate <--` hint (lines 248-251). -/
def taxRateHint (t : Nat) : Nat :=
  if t < TaxFull.bracket1Limit then 0
  else if t < TaxFull.bracket2Limit then 5
  else if t < TaxFull.bracket3Limit then 15
  else if t < TaxFull.bracket4Limit then 20
  else 35

def baseTax (i : Inputs) (taxRate : Nat) : Nat :=
  fmul (fmul (taxableIncome i) taxRate) inv100

def dependentCredit (i : Inputs) : Nat := fmul i.dependents 1000000

def taxGtCredit_out (i : Inputs) (taxRate : Nat) : Nat :=
  geqOut 64 (baseTax i taxRate) (dependentCredit i)

def finalTax (i : Inputs) (taxRate : Nat) : Nat :=
  fmul (taxGtCredit_out i taxRate) (fsub (baseTax i taxRate) (dependentCredit i))

def finalGtZero_out (i : Inputs) (taxRate : Nat) : Nat :=
  geqOut 64 (finalTax i taxRate) 0

def taxOwed (i : Inputs) (taxRate : Nat) : Nat := finalTax i taxRate

def taxBracket (taxRate : Nat) : Nat := taxRate

def isValid (i : Inputs) (taxRate : Nat) : Nat := finalGtZero_out i taxRate

def Valid (i : Inputs) (taxRate : Nat) : Prop :=
  Wf i ∧ taxRate < p ∧
  geqSat 64 (taxableIncome i) 0 ∧
  geqOut 64 (taxableIncome i) 0 = 1 ∧
  ltSat 64 (taxableIncome i) TaxFull.bracket1Limit ∧
  ltSat 64 (taxableIncome i) TaxFull.bracket2Limit ∧
  ltSat 64 (taxableIncome i) TaxFull.bracket3Limit ∧
  ltSat 64 (taxableIncome i) TaxFull.bracket4Limit ∧
  geqSat 64 (baseTax i taxRate) (dependentCredit i) ∧
  geqSat 64 (finalTax i taxRate) 0

instance (i : Inputs) (taxRate : Nat) : Decidable (Valid i taxRate) :=
  inferInstanceAs (Decidable (_ ∧ _ ∧ _ ∧ _ ∧ _ ∧ _ ∧ _ ∧ _ ∧ _ ∧ _))

end TaxSimple

namespace Circom

theorem p_pos : 0 < p := by decide

/-- Exact form of field division by 100 when the result is in range. -/
theorem fmul_inv100_div {x : Nat} (hx : x < p) (h : fmul x inv100 < 2 ^ 64) :
    fmul x inv100 = x / 100 := by
  have h100 := fmul_inv100_exact hx h
  conv_rhs => rw [← h100]
  rw [Nat.mul_div_cancel_left _ (by norm_num : (0 : Nat) < 100)]

end Circom

namespace Spec

/-- Modelled from the spec: the closed-form progressive sum over the 2024
bracket table {600k at 0%, 1.2M at 5%, 2.4M at 15%, 3.6M at 20%, unbounded
at 35%}, on amounts scaled by 100 (paisa). -/
def progressiveTax (taxable : Nat) : Nat :=
  min taxable 60000000 * 0 / 100 +
  min (taxable - 60000000) 60000000 * 5 / 100 +
  min (taxable - 120000000) 120000000 * 15 / 100 +
  min (taxable - 240000000) 120000000 * 20 / 100 +
  (taxable - 360000000) * 35 / 100

/-- Modelled from the spec: progressive tax minus a 10,000-PKR-per-dependent
credit (1,000,000 paisa), clamped at 0 (truncated subtraction). -/
def taxOwedSpec (taxable dependents : Nat) : Nat :=
  progressiveTax taxable - dependents * 1000000

theorem mul_div_hundred_le (a r : Nat) (hr : r ≤ 100) : a * r / 100 ≤ a := by
  calc a * r / 100 ≤ a * 100 / 100 := Nat.div_le_div_right (Nat.mul_le_mul_left a hr)
  _ = a := Nat.mul_div_cancel a (by norm_num)

theorem progressiveTax_le (t : Nat) : progressiveTax t ≤ t := by
  unfold progressiveTax
  have h2 := mul_div_hundred_le (min (t - 60000000) 60000000) 5 (by norm_num)
  have h3 := mul_div_hundred_le (min (t - 120000000) 120000000) 15 (by norm_num)
  have h4 := mul_div_hundred_le (min (t - 240000000) 120000000) 20 (by norm_num)
  have h5 := mul_div_hundred_le (t - 360000000) 35 (by norm_num)
  omega

theorem progressiveTax_case1 {t : Nat} (h : t < 60000000) :
    progressiveTax t = 0 := by
  unfold progressiveTax
  have e1 : min t 60000000 = t := by omega
  have e2 : t - 60000000 = 0 := by omega
  have e3 : t - 120000000 = 0 := by omega
  have e4 : t - 240000000 = 0 := by omega
  have e5 : t - 360000000 = 0 := by omega
  rw [e1, e2, e3, e4, e5]
  norm_num

theorem progressiveTax_case2 {t : Nat} (h1 : 60000000 ≤ t) (h2 : t < 120000000) :
    progressiveTax t = (t - 60000000) * 5 / 100 := by
  unfold progressiveTax
  have e1 : min t 60000000 = 60000000 := by omega
  have e2 : min (t - 60000000) 60000000 = t - 60000000 := by omega
  have e3 : t - 120000000 = 0 := by omega
  have e4 : t - 240000000 = 0 := by omega
  have e5 : t - 360000000 = 0 := by omega
  rw [e1, e2, e3, e4, e5]
  norm_num

theorem progressiveTax_case3 {t : Nat} (h1 : 120000000 ≤ t) (h2 : t < 240000000) :
    progressiveTax t = 3000000 + (t - 120000000) * 15 / 100 := by
  unfold progressiveTax
  have e1 : min t 60000000 = 60000000 := by omega
  have e2 : min (t - 60000000) 60000000 = 60000000 := by omega
  have e3 : min (t - 120000000) 120000000 = t - 120000000 := by omega
  have e4 : t - 240000000 = 0 := by omega
  have e5 : t - 360000000 = 0 := by omega
  rw [e1, e2, e3, e4, e5]
  norm_num

theorem progressiveTax_case4 {t : Nat} (h1 : 240000000 ≤ t) (h2 : t < 360000000) :
    progressiveTax t = 21000000 + (t - 240000000) * 20 / 100 := by
  unfold progressiveTax
  have e1 : min t 60000000 = 60000000 := by omega
  have e2 : min (t - 60000000) 60000000 = 60000000 := by omega
  have e3 : min (t - 120000000) 120000000 = 120000000 := by omega
  have e4 : min (t - 240000000) 120000000 = t - 240000000 := by omega
  have e5 : t - 360000000 = 0 := by omega
  rw [e1, e2, e3, e4, e5]
  norm_num

theorem progressiveTax_case5 {t : Nat} (h1 : 360000000 ≤ t) :
    progressiveTax t = 45000000 + (t - 360000000) * 35 / 100 := by
  unfold progressiveTax
  have e1 : min t 60000000 = 60000000 := by omega
  have e2 : min (t - 60000000) 60000000 = 60000000 := by omega
  have e3 : min (t - 120000000) 120000000 = 120000000 := by omega
  have e4 : min (t - 240000000) 120000000 = 120000000 := by omega
  rw [e1, e2, e3, e4]

end Spec

namespace TaxFull

theorem b1Check_out_eq {t : Nat} (ht : t < 2 ^ 64) :
    b1Check_out t = if t < 60000000 then 1 else 0 := by
  rw [b1Check_out, ltOut_eq ht (by norm_num [bracket1Limit])]
  simp only [bracket1Limit]

theorem b2Check_out_eq {t : Nat} (ht : t < 2 ^ 64) :
    b2Check_out t = if t < 120000000 then 1 else 0 := by
  rw [b2Check_out, ltOut_eq ht (by norm_num [bracket2Limit])]
  simp only [bracket2Limit]

theorem b3Check_out_eq {t : Nat} (ht : t < 2 ^ 64) :
    b3Check_out t = if t < 240000000 then 1 else 0 := by
  rw [b3Check_out, ltOut_eq ht (by norm_num [bracket3Limit])]
  simp only [bracket3Limit]

theorem inBracket4_out_eq {t : Nat} (ht : t < 2 ^ 64) :
    inBracket4_out t = if t < 360000000 then 1 else 0 := by
  rw [inBracket4_out, ltOut_eq ht (by norm_num [bracket4Limit])]
  simp only [bracket4Limit]

theorem tax1_eq (t : Nat) : tax1 t = 0 := by
  rw [tax1, fmul_zero_right, fmul_zero_left]

/-- The full-bracket machinery computes exactly the closed-form progressive
sum of the spec, on every taxable income whose per-tier tax signals fit the
64-bit comparator range. -/
theorem baseTax_eq {t : Nat} (ht : t < 2 ^ 64)
    (h2 : tax2 t < 2 ^ 64) (h3 : tax3 t < 2 ^ 64)
    (h4 : tax4 t < 2 ^ 64) (h5 : tax5 t < 2 ^ 64) :
    baseTax t = Spec.progressiveTax t := by
  have htp : t < p := by have := p_large; omega
  rcases Nat.lt_or_ge t 60000000 with hc1 | hc1
  · -- bracket 1: everything above tier 1 vanishes
    have hb1 : b1Check_out t = 1 := by rw [b1Check_out_eq ht, if_pos hc1]
    have hb2 : b2Check_out t = 1 := by rw [b2Check_out_eq ht, if_pos (by omega)]
    have hb3 : b3Check_out t = 1 := by rw [b3Check_out_eq ht, if_pos (by omega)]
    have hb4 : inBracket4_out t = 1 := by rw [inBracket4_out_eq ht, if_pos (by omega)]
    have hbt2 : b2Taxable t = 0 := by rw [b2Taxable, hb1, fsub_one_one, fmul_zero_right]
    have ha2 : bracket2Amount t = 0 := by
      rw [bracket2Amount, hb2, hbt2, fsub_one_one, fmul_zero_right, fmul_zero_left,
        fadd_zero_left p_pos]
    have htx2 : tax2 t = 0 := by rw [tax2, ha2, fmul_zero_left, fmul_zero_left]
    have hbt3 : b3Taxable t = 0 := by rw [b3Taxable, hb2, fsub_one_one, fmul_zero_right]
    have ha3 : bracket3Amount t = 0 := by
      rw [bracket3Amount, hb3, hbt3, fsub_one_one, fmul_zero_right, fmul_zero_left,
        fadd_zero_left p_pos]
    have htx3 : tax3 t = 0 := by rw [tax3, ha3, fmul_zero_left, fmul_zero_left]
    have hbt4 : b4Taxable t = 0 := by rw [b4Taxable, hb3, fsub_one_one, fmul_zero_right]
    have ha4 : bracket4Amount t = 0 := by
      rw [bracket4Amount, hb4, hbt4, fsub_one_one, fmul_zero_right, fmul_zero_left,
        fadd_zero_left p_pos]
    have htx4 : tax4 t = 0 := by rw [tax4, ha4, fmul_zero_left, fmul_zero_left]
    have hbt5 : b5Taxable t = 0 := by rw [b5Taxable, hb4, fsub_one_one, fmul_zero_right]
    have htx5 : tax5 t = 0 := by
      rw [tax5, bracket5Amount, hbt5, fmul_zero_left, fmul_zero_left]
    rw [baseTax, tax1_eq, htx2, htx3, htx4, htx5, Spec.progressiveTax_case1 hc1]
    decide
  · rcases Nat.lt_or_ge t 120000000 with hc2 | hc2
    · -- bracket 2
      have hb1 : b1Check_out t = 0 := by rw [b1Check_out_eq ht, if_neg (by omega)]
      have hb2 : b2Check_out t = 1 := by rw [b2Check_out_eq ht, if_pos hc2]
      have hb3 : b3Check_out t = 1 := by rw [b3Check_out_eq ht, if_pos (by omega)]
      have hb4 : inBracket4_out t = 1 := by rw [inBracket4_out_eq ht, if_pos (by omega)]
      have he1 : excessOverB1 t = t - 60000000 := by
        rw [excessOverB1]
        simp only [bracket1Limit]
        exact fsub_of_le (show (60000000 : Nat) ≤ t by omega) htp
      have hbt2 : b2Taxable t = t - 60000000 := by
        rw [b2Taxable, hb1, fsub_one_zero, he1,
          fmul_one_right (show t - 60000000 < p by omega)]
      have ha2 : bracket2Amount t = t - 60000000 := by
        rw [bracket2Amount, hb2, hbt2, fsub_one_one, fmul_zero_left,
          fmul_one_left (show t - 60000000 < p by omega),
          fadd_zero_right (show t - 60000000 < p by omega)]
      have e2 : tax2 t = fmul ((t - 60000000) * 5) inv100 := by
        rw [tax2, ha2]
        exact congrArg (fun z => fmul z inv100)
          (fmul_small (show (t - 60000000) * 5 < p by have := p_large; omega))
      have h2f : fmul ((t - 60000000) * 5) inv100 < 2 ^ 64 := e2 ▸ h2
      have v2 : tax2 t = (t - 60000000) * 5 / 100 := by
        rw [e2, fmul_inv100_div (show (t - 60000000) * 5 < p by have := p_large; omega) h2f]
      have hbt3 : b3Taxable t = 0 := by rw [b3Taxable, hb2, fsub_one_one, fmul_zero_right]
      have ha3 : bracket3Amount t = 0 := by
        rw [bracket3Amount, hb3, hbt3, fsub_one_one, fmul_zero_right, fmul_zero_left,
          fadd_zero_left p_pos]
      have htx3 : tax3 t = 0 := by rw [tax3, ha3, fmul_zero_left, fmul_zero_left]
      have hbt4 : b4Taxable t = 0 := by rw [b4Taxable, hb3, fsub_one_one, fmul_zero_right]
      have ha4 : bracket4Amount t = 0 := by
        rw [bracket4Amount, hb4, hbt4, fsub_one_one, fmul_zero_right, fmul_zero_left,
          fadd_zero_left p_pos]
      have htx4 : tax4 t = 0 := by rw [tax4, ha4, fmul_zero_left, fmul_zero_left]
      have hbt5 : b5Taxable t = 0 := by rw [b5Taxable, hb4, fsub_one_one, fmul_zero_right]
      have htx5 : tax5 t = 0 := by
        rw [tax5, bracket5Amount, hbt5, fmul_zero_left, fmul_zero_left]
      rw [baseTax, tax1_eq, htx3, htx4, htx5, Spec.progressiveTax_case2 hc1 hc2, ← v2]
      rw [fadd_zero_left (show tax2 t < p by have := p_large; omega)]
      rw [fadd_zero_right (show tax2 t < p by have := p_large; omega)]
      rw [fadd_zero_right (show tax2 t < p by have := p_large; omega)]
      rw [fadd_zero_right (show tax2 t < p by have := p_large; omega)]
    · rcases Nat.lt_or_ge t 240000000 with hc3 | hc3
      · -- bracket 3
        have hb1 : b1Check_out t = 0 := by rw [b1Check_out_eq ht, if_neg (by omega)]
        have hb2 : b2Check_out t = 0 := by rw [b2Check_out_eq ht, if_neg (by omega)]
        have hb3 : b3Check_out t = 1 := by rw [b3Check_out_eq ht, if_pos hc3]
        have hb4 : inBracket4_out t = 1 := by rw [inBracket4_out_eq ht, if_pos (by omega)]
        have ha2 : bracket2Amount t = 60000000 := by
          rw [bracket2Amount, hb2, fsub_one_zero, fmul_zero_left,
            fmul_one_left (show bracket2Limit - bracket1Limit < p by decide),
            fadd_zero_left (show bracket2Limit - bracket1Limit < p by decide)]
          decide
        have htx2 : tax2 t = 3000000 := by rw [tax2, ha2]; decide
        have he2 : excessOverB2 t = t - 120000000 := by
          rw [excessOverB2]
          simp only [bracket2Limit]
          exact fsub_of_le (show (120000000 : Nat) ≤ t by omega) htp
        have hbt3 : b3Taxable t = t - 120000000 := by
          rw [b3Taxable, hb2, fsub_one_zero, he2,
            fmul_one_right (show t - 120000000 < p by omega)]
        have ha3 : bracket3Amount t = t - 120000000 := by
          rw [bracket3Amount, hb3, hbt3, fsub_one_one, fmul_zero_left,
            fmul_one_left (show t - 120000000 < p by omega),
            fadd_zero_right (show t - 120000000 < p by omega)]
        have e3 : tax3 t = fmul ((t - 120000000) * 15) inv100 := by
          rw [tax3, ha3]
          exact congrArg (fun z => fmul z inv100)
            (fmul_small (show (t - 120000000) * 15 < p by have := p_large; omega))
        have h3f : fmul ((t - 120000000) * 15) inv100 < 2 ^ 64 := e3 ▸ h3
        have v3 : tax3 t = (t - 120000000) * 15 / 100 := by
          rw [e3,
            fmul_inv100_div (show (t - 120000000) * 15 < p by have := p_large; omega) h3f]
        have hbt4 : b4Taxable t = 0 := by rw [b4Taxable, hb3, fsub_one_one, fmul_zero_right]
        have ha4 : bracket4Amount t = 0 := by
          rw [bracket4Amount, hb4, hbt4, fsub_one_one, fmul_zero_right, fmul_zero_left,
            fadd_zero_left p_pos]
        have htx4 : tax4 t = 0 := by rw [tax4, ha4, fmul_zero_left, fmul_zero_left]
        have hbt5 : b5Taxable t = 0 := by rw [b5Taxable, hb4, fsub_one_one, fmul_zero_right]
        have htx5 : tax5 t = 0 := by
          rw [tax5, bracket5Amount, hbt5, fmul_zero_left, fmul_zero_left]
        rw [baseTax, tax1_eq, htx2, htx4, htx5, Spec.progressiveTax_case3 hc2 hc3, ← v3]
        rw [fadd_zero_left (show (3000000 : Nat) < p by decide)]
        rw [fadd_small (show 3000000 + tax3 t < p by have := p_large; omega)]
        rw [fadd_zero_right (show 3000000 + tax3 t < p by have := p_large; omega)]
        rw [fadd_zero_right (show 3000000 + tax3 t < p by have := p_large; omega)]
      · rcases Nat.lt_or_ge t 360000000 with hc4 | hc4
        · -- bracket 4
          have hb1 : b1Check_out t = 0 := by rw [b1Check_out_eq ht, if_neg (by omega)]
          have hb2 : b2Check_out t = 0 := by rw [b2Check_out_eq ht, if_neg (by omega)]
          have hb3 : b3Check_out t = 0 := by rw [b3Check_out_eq ht, if_neg (by omega)]
          have hb4 : inBracket4_out t = 1 := by rw [inBracket4_out_eq ht, if_pos hc4]
          have ha2 : bracket2Amount t = 60000000 := by
            rw [bracket2Amount, hb2, fsub_one_zero, fmul_zero_left,
              fmul_one_left (show bracket2Limit - bracket1Limit < p by decide),
              fadd_zero_left (show bracket2Limit - bracket1Limit < p by decide)]
            decide
          have htx2 : tax2 t = 3000000 := by rw [tax2, ha2]; decide
          have ha3 : bracket3Amount t = 120000000 := by
            rw [bracket3Amount, hb3, fsub_one_zero, fmul_zero_left,
              fmul_one_left (show bracket3Limit - bracket2Limit < p by decide),
              fadd_zero_left (show bracket3Limit - bracket2Limit < p by decide)]
            decide
          have htx3 : tax3 t = 18000000 := by rw [tax3, ha3]; decide
          have he3 : excessOverB3 t = t - 240000000 := by
            rw [excessOverB3]
            simp only [bracket3Limit]
            exact fsub_of_le (show (240000000 : Nat) ≤ t by omega) htp
          have hbt4 : b4Taxable t = t - 240000000 := by
            rw [b4Taxable, hb3, fsub_one_zero, he3,
              fmul_one_right (show t - 240000000 < p by omega)]
          have ha4 : bracket4Amount t = t - 240000000 := by
            rw [bracket4Amount, hb4, hbt4, fsub_one_one, fmul_zero_left,
              fmul_one_left (show t - 240000000 < p by omega),
              fadd_zero_right (show t - 240000000 < p by omega)]
          have e4 : tax4 t = fmul ((t - 240000000) * 20) inv100 := by
            rw [tax4, ha4]
            exact congrArg (fun z => fmul z inv100)
              (fmul_small (show (t - 240000000) * 20 < p by have := p_large; omega))
          have h4f : fmul ((t - 240000000) * 20) inv100 < 2 ^ 64 := e4 ▸ h4
          have v4 : tax4 t = (t - 240000000) * 20 / 100 := by
            rw [e4,
              fmul_inv100_div (show (t - 240000000) * 20 < p by have := p_large; omega) h4f]
          have hbt5 : b5Taxable t = 0 := by
            rw [b5Taxable, hb4, fsub_one_one, fmul_zero_right]
          have htx5 : tax5 t = 0 := by
            rw [tax5, bracket5Amount, hbt5, fmul_zero_left, fmul_zero_left]
          rw [baseTax, tax1_eq, htx2, htx3, htx5, Spec.progressiveTax_case4 hc3 hc4, ← v4]
          rw [fadd_zero_left (show (3000000 : Nat) < p by decide)]
          rw [fadd_small (show (3000000 : Nat) + 18000000 < p by decide)]
          norm_num
          rw [fadd_small (show (21000000 : Nat) + tax4 t < p by have := p_large; omega)]
          rw [fadd_zero_right (show (21000000 : Nat) + tax4 t < p by have := p_large; omega)]
        · -- bracket 5
          have hb1 : b1Check_out t = 0 := by rw [b1Check_out_eq ht, if_neg (by omega)]
          have hb2 : b2Check_out t = 0 := by rw [b2Check_out_eq ht, if_neg (by omega)]
          have hb3 : b3Check_out t = 0 := by rw [b3Check_out_eq ht, if_neg (by omega)]
          have hb4 : inBracket4_out t = 0 := by rw [inBracket4_out_eq ht, if_neg (by omega)]
          have ha2 : bracket2Amount t = 60000000 := by
            rw [bracket2Amount, hb2, fsub_one_zero, fmul_zero_left,
              fmul_one_left (show bracket2Limit - bracket1Limit < p by decide),
              fadd_zero_left (show bracket2Limit - bracket1Limit < p by decide)]
            decide
          have htx2 : tax2 t = 3000000 := by rw [tax2, ha2]; decide
          have ha3 : bracket3Amount t = 120000000 := by
            rw [bracket3Amount, hb3, fsub_one_zero, fmul_zero_left,
              fmul_one_left (show bracket3Limit - bracket2Limit < p by decide),
              fadd_zero_left (show bracket3Limit - bracket2Limit < p by decide)]
            decide
          have htx3 : tax3 t = 18000000 := by rw [tax3, ha3]; decide
          have ha4 : bracket4Amount t = 120000000 := by
            rw [bracket4Amount, hb4, fsub_one_zero, fmul_zero_left,
              fmul_one_left (show bracket4Limit - bracket3Limit < p by decide),
              fadd_zero_left (show bracket4Limit - bracket3Limit < p by decide)]
            decide
          have htx4 : tax4 t = 24000000 := by rw [tax4, ha4]; decide
          have he4 : excessOverB4 t = t - 360000000 := by
            rw [excessOverB4]
            simp only [bracket4Limit]
            exact fsub_of_le (show (360000000 : Nat) ≤ t by omega) htp
          have hbt5 : b5Taxable t = t - 360000000 := by
            rw [b5Taxable, hb4, fsub_one_zero, he4,
              fmul_one_right (show t - 360000000 < p by omega)]
          have e5 : tax5 t = fmul ((t - 360000000) * 35) inv100 := by
            rw [tax5, bracket5Amount, hbt5]
            exact congrArg (fun z => fmul z inv100)
              (fmul_small (show (t - 360000000) * 35 < p by have := p_large; omega))
          have h5f : fmul ((t - 360000000) * 35) inv100 < 2 ^ 64 := e5 ▸ h5
          have v5 : tax5 t = (t - 360000000) * 35 / 100 := by
            rw [e5,
              fmul_inv100_div (show (t - 360000000) * 35 < p by have := p_large; omega) h5f]
          rw [baseTax, tax1_eq, htx2, htx3, htx4, Spec.progressiveTax_case5 hc4, ← v5]
          rw [fadd_zero_left (show (3000000 : Nat) < p by decide)]
          rw [fadd_small (show (3000000 : Nat) + 18000000 < p by decide)]
          rw [fadd_small (show (3000000 : Nat) + 18000000 + 24000000 < p by decide)]
          norm_num
          rw [fadd_small (show (45000000 : Nat) + tax5 t < p by have := p_large; omega)]

end TaxFull

namespace Circom

/-- When deductions exceed income (both in the 64-bit range), the taxable
income wraps to a huge field element and `GreaterEqThan(64)(taxable, 0)`
outputs 0. -/
theorem geqOut_wrap_zero {a b : Nat} (hab : a < b) (hb : b < 2 ^ 64) :
    geqOut 64 (fsub a b) 0 = 0 := by
  have hp := p_large
  have hbp : b < p := by omega
  have ht : fsub a b = p - (b - a) := fsub_of_lt hab hbp
  unfold geqOut
  by_cases hk : b - a = 1
  · have h1 : fadd (fsub a b) 1 = 0 := by
      rw [ht, hk]
      unfold fadd
      have h2 : p - 1 + 1 = p := by omega
      rw [h2, Nat.mod_self]
    rw [h1]
    unfold ltOut ltSig
    rw [fadd_zero_left (show (2 : Nat) ^ 64 < p by omega),
      fsub_of_le (Nat.zero_le _) (show (2 : Nat) ^ 64 < p by omega)]
    norm_num
  · have hk2 : 2 ≤ b - a := by omega
    have h1 : fadd (fsub a b) 1 = p - (b - a - 1) := by
      rw [ht]
      unfold fadd
      rw [Nat.mod_eq_of_lt (by omega)]
      omega
    rw [h1]
    unfold ltOut ltSig
    rw [fadd_zero_left (show (2 : Nat) ^ 64 < p by omega),
      fsub_of_lt (by omega) (by omega)]
    have h3 : p - (p - (b - a - 1) - 2 ^ 64) = (b - a - 1) + 2 ^ 64 := by omega
    rw [h3, Nat.add_div_right _ (by norm_num), Nat.div_eq_of_lt (by omega)]

end Circom

/-- C1 (amended): for the FULL-BRACKET `TaxCalculation` variant, on every
input whose derived signals fit the 64-bit comparator range (no underflow in
`income - totalDeductions`, the five per-tier tax signals and the dependent
credit all below `2^64`), the public output `taxOwed` equals the closed-form
progressive sum over the 2024 bracket table applied to
`taxable = income - totalDeductions`, minus the 10,000-PKR-per-dependent
credit, clamped at 0.  (The simplified variant does not satisfy this; see
the counterexample.) -/
theorem claim_C1_amended (i : TaxFull.Inputs)
    (hinc : i.income < p)
    (hded : i.totalDeductions ≤ i.income)
    (ht : i.income - i.totalDeductions < 2 ^ 64)
    (h2 : TaxFull.tax2 (i.income - i.totalDeductions) < 2 ^ 64)
    (h3 : TaxFull.tax3 (i.income - i.totalDeductions) < 2 ^ 64)
    (h4 : TaxFull.tax4 (i.income - i.totalDeductions) < 2 ^ 64)
    (h5 : TaxFull.tax5 (i.income - i.totalDeductions) < 2 ^ 64)
    (hdep : i.dependents * 1000000 < 2 ^ 64) :
    TaxFull.taxOwed i = Spec.taxOwedSpec (i.income - i.totalDeductions) i.dependents := by
  have hp := p_large
  have htax : TaxFull.taxableIncome i = i.income - i.totalDeductions :=
    fsub_of_le hded hinc
  have hbase : TaxFull.baseTax (i.income - i.totalDeductions) =
      Spec.progressiveTax (i.income - i.totalDeductions) :=
    TaxFull.baseTax_eq ht h2 h3 h4 h5
  have hbaselt : Spec.progressiveTax (i.income - i.totalDeductions) < 2 ^ 64 := by
    have := Spec.progressiveTax_le (i.income - i.totalDeductions)
    omega
  have hcred : TaxFull.dependentCredit i = i.dependents * 1000000 :=
    fmul_small (by omega)
  rw [TaxFull.taxOwed, TaxFull.finalTax, TaxFull.taxGtCredit_out, htax, hcred, hbase,
    geqOut_eq hbaselt hdep]
  rcases le_or_lt (i.dependents * 1000000)
      (Spec.progressiveTax (i.income - i.totalDeductions)) with hle | hlt
  · rw [if_pos hle, fsub_of_le hle (by omega),
      fmul_one_left (show Spec.progressiveTax (i.income - i.totalDeductions) -
        i.dependents * 1000000 < p by omega)]
    rw [Spec.taxOwedSpec]
  · rw [if_neg (by omega), fmul_zero_left, Spec.taxOwedSpec]
    omega

/-- C1 witness: at the spec scenario (income 1,500,000 PKR, deductions
200,000 PKR, 2 dependents, all scaled by 100) the full-bracket variant is
satisfiable and outputs 2,500,000 (25,000 PKR). -/
theorem claim_C1_witness :
    TaxFull.taxOwed ⟨150000000, 20000000, 2, 0⟩ = 2500000 ∧
    TaxFull.Valid ⟨150000000, 20000000, 2, 0⟩ 15 := by
  constructor
  · rw [claim_C1_amended ⟨150000000, 20000000, 2, 0⟩ (by decide) (by decide) (by decide)
      (by decide) (by decide) (by decide) (by decide) (by decide)]
    decide
  · decide

/-- C1 counterexample: the claim says EVERY `TaxCalculation` variant computes
the progressive sum, yielding 2,500,000 at the spec scenario.  The
simplified variant admits a valid witness at that very scenario (with the
canonical value 15 of its `taxRate` hint) whose public output `taxOwed` is
17,500,000, because it applies the single rate to the whole taxable income. -/
theorem claim_C1_counterexample :
    TaxSimple.Valid ⟨150000000, 20000000, 2, 0⟩ 15 ∧
    TaxSimple.taxRateHint (TaxSimple.taxableIncome ⟨150000000, 20000000, 2, 0⟩) = 15 ∧
    TaxSimple.taxOwed ⟨150000000, 20000000, 2, 0⟩ 15 = 17500000 ∧
    TaxSimple.taxOwed ⟨150000000, 20000000, 2, 0⟩ 15 ≠ 2500000 := by decide

/-- C2: for every input of either `TaxCalculation` variant with
`totalDeductions > income` (both within the 64-bit comparator range), the
circuit is unsatisfiable: the hard constraint `gtZero.out === 1` on
`taxableIncome = income - totalDeductions` fails for every choice of the
hinted `taxRate`, so no valid witness exists. -/
theorem claim_C2 :
    (∀ (i : TaxFull.Inputs) (taxRate : Nat),
      i.income < 2 ^ 64 → i.totalDeductions < 2 ^ 64 →
      i.income < i.totalDeductions → ¬ TaxFull.Valid i taxRate) ∧
    (∀ (i : TaxSimple.Inputs) (taxRate : Nat),
      i.income < 2 ^ 64 → i.totalDeductions < 2 ^ 64 →
      i.income < i.totalDeductions → ¬ TaxSimple.Valid i taxRate) := by
  constructor
  · intro i taxRate h1 h2 h3 hV
    have hout : geqOut 64 (TaxFull.taxableIncome i) 0 = 1 := hV.2.2.2.1
    have h0 : geqOut 64 (TaxFull.taxableIncome i) 0 = 0 := geqOut_wrap_zero h3 h2
    omega
  · intro i taxRate h1 h2 h3 hV
    have hout : geqOut 64 (TaxSimple.taxableIncome i) 0 = 1 := hV.2.2.2.1
    have h0 : geqOut 64 (TaxSimple.taxableIncome i) 0 = 0 := geqOut_wrap_zero h3 h2
    omega

/-- C2 witness: with income 100 and deductions 200 neither variant has any
valid witness (shown here for hint value 0). -/
theorem claim_C2_witness :
    ¬ TaxFull.Valid ⟨100, 200, 0, 0⟩ 0 ∧ ¬ TaxSimple.Valid ⟨100, 200, 0, 0⟩ 0 :=
  ⟨claim_C2.1 ⟨100, 200, 0, 0⟩ 0 (by decide) (by decide) (by decide),
   claim_C2.2 ⟨100, 200, 0, 0⟩ 0 (by decide) (by decide) (by decide)⟩

/-- C9 (amended): in the full-bracket variant the hinted `taxRate` feeds only
the public output `taxBracket`, so from any valid witness and any field
element `v` one obtains a valid witness whose `taxBracket` output is `v` —
the output is not determined by the inputs.  In the simplified variant the
output is still underdetermined (two valid witnesses on identical inputs
disagree on it), but not every field element is attainable, because
`taxRate` also feeds `baseTax`, which must satisfy a comparator range
condition. -/
theorem claim_C9_amended :
    (∀ (i : TaxFull.Inputs) (taxRate v : Nat),
      TaxFull.Valid i taxRate → v < p →
      TaxFull.Valid i v ∧ TaxFull.taxBracket v = v) ∧
    (TaxSimple.Valid ⟨100, 0, 0, 0⟩ 0 ∧ TaxSimple.Valid ⟨100, 0, 0, 0⟩ 35 ∧
      TaxSimple.taxBracket 0 ≠ TaxSimple.taxBracket 35) := by
  constructor
  · intro i taxRate v hV hv
    exact ⟨⟨hV.1, hv, hV.2.2⟩, rfl⟩
  · decide

/-- C9 witness: a concrete valid witness of the full-bracket variant is
rebased to the arbitrary `taxBracket` value 7. -/
theorem claim_C9_witness :
    TaxFull.Valid ⟨500000, 0, 1, 0⟩ 7 ∧ TaxFull.taxBracket 7 = 7 :=
  claim_C9_amended.1 ⟨500000, 0, 1, 0⟩ 0 7 (by decide) (by decide)

/-- C9 counterexample: in the simplified variant the input
(income 100, no deductions) admits a valid witness, yet the field element
`2^64` is a `taxBracket` output of NO valid witness on that input: the only
signal assignment with that output sets `taxRate = 2^64`, and it violates
the `Num2Bits` range condition of the `taxGtCredit` comparator on
`baseTax = taxableIncome * taxRate / 100`.  So the claim, read over every
variant and every field element, fails. -/
theorem claim_C9_counterexample :
    TaxSimple.Valid ⟨100, 0, 0, 0⟩ 0 ∧
    2 ^ 64 < p ∧ TaxSimple.taxBracket (2 ^ 64) = 2 ^ 64 ∧
    ¬ TaxSimple.Valid ⟨100, 0, 0, 0⟩ (2 ^ 64) := by decide

/-!
`MeansTest` circuit (`src/circuits/means_test/means_test.circom`,
lines 18-91).  No hinted signals: every signal is determined by the inputs.
-/

namespace MeansTest

structure Inputs where
  monthlyIncome : Nat
  monthlyExpenses : Nat
  totalAssets : Nat
  totalLiabilities : Nat
  dependents : Nat
  eligibilityThreshold : Nat

def Wf (m : Inputs) : Prop :=
  m.monthlyIncome < p ∧ m.monthlyExpenses < p ∧ m.totalAssets < p ∧
  m.totalLiabilities < p ∧ m.dependents < p ∧ m.eligibilityThreshold < p

instance (m : Inputs) : Decidable (Wf m) :=
  inferInstanceAs (Decidable (_ ∧ _ ∧ _ ∧ _ ∧ _ ∧ _))

def monthlyDisposable (m : Inputs) : Nat := fsub m.monthlyIncome m.monthlyExpenses

def dispGtZero_out (m : Inputs) : Nat :=
  geqOut 64 (fadd (monthlyDisposable m) m.monthlyExpenses) m.monthlyExpenses

def annualDisposable (m : Inputs) : Nat := fmul (monthlyDisposable m) 12

def calculatedNetWorth (m : Inputs) : Nat := fsub m.totalAssets m.totalLiabilities

def dependentAdjustment (m : Inputs) : Nat :=
  fmul (fmul (fmul m.eligibilityThreshold m.dependents) 10) inv100

def adjustedThreshold (m : Inputs) : Nat :=
  fadd m.eligibilityThreshold (dependentAdjustment m)

def totalNeed (m : Inputs) : Nat :=
  fadd (annualDisposable m) (fmul (calculatedNetWorth m) inv10)

def isElig_out (m : Inputs) : Nat := ltOut 64 (totalNeed m) (adjustedThreshold m)

def verifyNetWorth_out (m : Inputs) : Nat := geqOut 64 m.totalAssets m.totalLiabilities

def isEligible (m : Inputs) : Nat := isElig_out m

def disposableIncome (m : Inputs) : Nat := monthlyDisposable m

def netWorth (m : Inputs) : Nat := calculatedNetWorth m

def eligibilityProduct (m : Inputs) : Nat := fmul (isEligible m) (verifyNetWorth_out m)

/-- The public signals of the circuit: the public input
`eligibilityThreshold` and the three outputs. -/
def publicSignals (m : Inputs) : Nat × Nat × Nat × Nat :=
  (m.eligibilityThreshold, isEligible m, disposableIncome m, netWorth m)

/-- Satisfiability of the whole constraint system: the `Num2Bits` range
conditions of the three comparators and the two `===` constraints
`dispGtZero.out === 1` and `eligibilityProduct === isEligible`. -/
def Valid (m : Inputs) : Prop :=
  Wf m ∧
  geqSat 64 (fadd (monthlyDisposable m) m.monthlyExpenses) m.monthlyExpenses ∧
  dispGtZero_out m = 1 ∧
  ltSat 64 (totalNeed m) (adjustedThreshold m) ∧
  geqSat 64 m.totalAssets m.totalLiabilities ∧
  eligibilityProduct m = isEligible m

instance (m : Inputs) : Decidable (Valid m) :=
  inferInstanceAs (Decidable (_ ∧ _ ∧ _ ∧ _ ∧ _ ∧ _))

end MeansTest

/-- C3: for every input of the `MeansTest` circuit with
`totalAssets < totalLiabilities` (both within the 64-bit comparator range),
no valid witness has `isEligible = 1`: the `verifyNetWorth` comparator
outputs 0, so the constraint `eligibilityProduct === isEligible` forces
`isEligible = 0`. -/
theorem claim_C3 (m : MeansTest.Inputs)
    (ha : m.totalAssets < 2 ^ 64) (hl : m.totalLiabilities < 2 ^ 64)
    (hal : m.totalAssets < m.totalLiabilities) :
    MeansTest.Valid m → MeansTest.isEligible m ≠ 1 := by
  intro hV
  have hprod : fmul (MeansTest.isEligible m) (MeansTest.verifyNetWorth_out m) =
      MeansTest.isEligible m := hV.2.2.2.2.2
  have hvnw : MeansTest.verifyNetWorth_out m = 0 := by
    rw [MeansTest.verifyNetWorth_out, geqOut_eq ha hl, if_neg (by omega)]
  rw [hvnw, fmul_zero_right] at hprod
  omega

/-- C3 witness: a concrete valid witness with assets 0 and liabilities 10
(net worth wraps to a huge field element) exists, and it is not eligible. -/
theorem claim_C3_witness :
    MeansTest.Valid ⟨100, 0, 0, 10, 0, 0⟩ ∧
    MeansTest.isEligible ⟨100, 0, 0, 10, 0, 0⟩ ≠ 1 := by
  constructor
  · decide
  · exact claim_C3 ⟨100, 0, 0, 10, 0, 0⟩ (by decide) (by decide) (by decide) (by decide)

/-- C10: the `MeansTest` circuit publicly discloses the exact private
differences: on every valid witness the public outputs satisfy
`disposableIncome = monthlyIncome - monthlyExpenses` and
`netWorth = totalAssets - totalLiabilities` (field subtraction), so two
valid witnesses whose differences disagree have different public signal
vectors. -/
theorem claim_C10 (m m2 : MeansTest.Inputs)
    (hV : MeansTest.Valid m) (hV2 : MeansTest.Valid m2) :
    (MeansTest.disposableIncome m = fsub m.monthlyIncome m.monthlyExpenses ∧
     MeansTest.netWorth m = fsub m.totalAssets m.totalLiabilities) ∧
    ((fsub m.monthlyIncome m.monthlyExpenses ≠ fsub m2.monthlyIncome m2.monthlyExpenses ∨
      fsub m.totalAssets m.totalLiabilities ≠ fsub m2.totalAssets m2.totalLiabilities) →
      MeansTest.publicSignals m ≠ MeansTest.publicSignals m2) := by
  refine ⟨⟨rfl, rfl⟩, ?_⟩
  intro hdiff heq
  have h2 : MeansTest.disposableIncome m = MeansTest.disposableIncome m2 := by
    have := congrArg (fun q => q.2.2.1) heq
    simpa using this
  have h3 : MeansTest.netWorth m = MeansTest.netWorth m2 := by
    have := congrArg (fun q => q.2.2.2) heq
    simpa using this
  rcases hdiff with hd | hd
  · exact hd h2
  · exact hd h3

/-- C10 witness: two concrete valid witnesses with different disposable
incomes produce different public signal vectors. -/
theorem claim_C10_witness :
    MeansTest.publicSignals ⟨300, 0, 0, 10, 0, 0⟩ ≠
      MeansTest.publicSignals ⟨400, 0, 0, 10, 0, 0⟩ :=
  (claim_C10 ⟨300, 0, 0, 10, 0, 0⟩ ⟨400, 0, 0, 10, 0, 0⟩ (by decide) (by decide)).2
    (by decide)

/-!
`DivorceSettlement` circuit (`src/circuits/means_test/means_test.circom`,
second template, lines 115-298).  Two hinted signals: `alimonyPercentage`
(line 172, `<--`) and `wifeBonusPercentage` (line 236, `<--`); neither is
re-validated by any constraint, so both are free variables of the
constraint system.
-/

namespace Divorce

structure Inputs where
  husbandIncome : Nat
  wifeIncome : Nat
  husbandAssets : Nat
  wifeAssets : Nat
  marriageDuration : Nat
  numberOfChildren : Nat
  childrenAges : Nat
  mehrAmount : Nat
  mehrPaid : Nat
  custodyToWife : Nat
  wifeContributed : Nat
  faultDivorce : Nat
  faultParty : Nat
  minimumMaintenance : Nat
  childSupportRate : Nat

def Wf (i : Inputs) : Prop :=
  i.husbandIncome < p ∧ i.wifeIncome < p ∧ i.husbandAssets < p ∧ i.wifeAssets < p ∧
  i.marriageDuration < p ∧ i.numberOfChildren < p ∧ i.childrenAges < p ∧
  i.mehrAmount < p ∧ i.mehrPaid < p ∧ i.custodyToWife < p ∧ i.wifeContributed < p ∧
  i.faultDivorce < p ∧ i.faultParty < p ∧ i.minimumMaintenance < p ∧
  i.childSupportRate < p

instance (i : Inputs) : Decidable (Wf i) :=
  inferInstanceAs
    (Decidable (_ ∧ _ ∧ _ ∧ _ ∧ _ ∧ _ ∧ _ ∧ _ ∧ _ ∧ _ ∧ _ ∧ _ ∧ _ ∧ _ ∧ _))

/-- The expression of the `alimonyPercentage <--` hint (lines 172-174): the
value the witness generator assigns; the constraint system never enforces
it. -/
def alimonyPercentageHint (i : Inputs) : Nat :=
  25 + (if i.wifeIncome = 0 then 5 else 0) + (if 10 < i.marriageDuration then 3 else 0)

/-- The expression of the `wifeBonusPercentage <--` hint (lines 236-239). -/
def wifeBonusPercentageHint (i : Inputs) : Nat :=
  50 + i.wifeContributed * 10 + (if 15 < i.marriageDuration then 5 else 0) +
    i.faultDivorce * (1 - i.faultParty) * 10

def alimonyBase (i : Inputs) (ap : Nat) : Nat :=
  fmul (fmul i.husbandIncome ap) inv100

def wifeHasIncome_out (i : Inputs) : Nat :=
  ltOut 64 (fmul i.husbandIncome inv2) i.wifeIncome

def alimonyReduction (i : Inputs) (ap : Nat) : Nat :=
  fmul (wifeHasIncome_out i) (fmul (fmul (alimonyBase i ap) 30) inv100)

def alimonyAdjusted (i : Inputs) (ap : Nat) : Nat :=
  fsub (alimonyBase i ap) (alimonyReduction i ap)

def meetsMinimum_out (i : Inputs) (ap : Nat) : Nat :=
  geqOut 64 (alimonyAdjusted i ap) i.minimumMaintenance

def monthlyAlimony (i : Inputs) (ap : Nat) : Nat :=
  fadd (fmul (meetsMinimum_out i ap) (alimonyAdjusted i ap))
    (fmul (fsub 1 (meetsMinimum_out i ap)) i.minimumMaintenance)

def childSupportPerChild (i : Inputs) : Nat :=
  fmul (fmul i.husbandIncome i.childSupportRate) inv100

def totalChildSupport (i : Inputs) : Nat :=
  fmul (childSupportPerChild i) i.numberOfChildren

def wifeHasCustody_out (i : Inputs) : Nat := isEqualOut i.custodyToWife 1

def childSupportFromHusband (i : Inputs) : Nat :=
  fmul (wifeHasCustody_out i) (totalChildSupport i)

def wifeHasCustodyInverse (i : Inputs) : Nat := fsub 1 i.custodyToWife

def childSupportFromWife (i : Inputs) : Nat :=
  fmul (fmul (wifeHasCustodyInverse i)
      (fmul (fmul i.wifeIncome i.childSupportRate) inv100))
    i.numberOfChildren

def monthlyChildSupport (i : Inputs) : Nat :=
  fsub (childSupportFromHusband i) (childSupportFromWife i)

def totalAssets (i : Inputs) : Nat := fadd i.husbandAssets i.wifeAssets

def wifeAssetShare (i : Inputs) (wbp : Nat) : Nat :=
  fmul (fmul (totalAssets i) wbp) inv100

def husbandAssetShare (i : Inputs) (wbp : Nat) : Nat :=
  fsub (totalAssets i) (wifeAssetShare i wbp)

def mehrNotPaid_out (i : Inputs) : Nat := ltOut 64 i.mehrPaid i.mehrAmount

def mehrBalance (i : Inputs) : Nat :=
  fmul (mehrNotPaid_out i) (fsub i.mehrAmount i.mehrPaid)

def lumpSumAlimony (i : Inputs) (ap : Nat) : Nat := fmul (monthlyAlimony i ap) 24

def totalSettlement (i : Inputs) (ap wbp : Nat) : Nat :=
  fadd (fadd (mehrBalance i) (lumpSumAlimony i ap)) (wifeAssetShare i wbp)

def wifeShareValid_out (i : Inputs) (wbp : Nat) : Nat :=
  geqOut 64 (wifeAssetShare i wbp) 0

def husbandShareValid_out (i : Inputs) (wbp : Nat) : Nat :=
  geqOut 64 (husbandAssetShare i wbp) 0

def alimonyInBounds_out (i : Inputs) (ap : Nat) : Nat :=
  ltOut 64 (monthlyAlimony i ap) (fmul (fmul i.husbandIncome 33) inv100)

def childSupportReasonable_out (i : Inputs) : Nat :=
  ltOut 64 (monthlyChildSupport i) (fmul (fmul i.husbandIncome 60) inv100)

def validSettlement (i : Inputs) (ap wbp : Nat) : Nat :=
  fmul (fmul (fmul (wifeShareValid_out i wbp) (husbandShareValid_out i wbp))
      (alimonyInBounds_out i ap))
    (childSupportReasonable_out i)

def isValid (i : Inputs) (ap wbp : Nat) : Nat := validSettlement i ap wbp

def settlementNonNegative_out (i : Inputs) (ap wbp : Nat) : Nat :=
  geqOut 64 (totalSettlement i ap wbp) 0

/-- Satisfiability of the whole constraint system of `DivorceSettlement`,
with the hinted signals `ap = alimonyPercentage` and
`wbp = wifeBonusPercentage` as free witness variables: well-formed field
elements, the `Num2Bits` range conditions of every comparator, and the
single `===` constraint `settlementNonNegative.out === 1`. -/
def Valid (i : Inputs) (ap wbp : Nat) : Prop :=
  Wf i ∧ ap < p ∧ wbp < p ∧
  ltSat 64 (fmul i.husbandIncome inv2) i.wifeIncome ∧
  geqSat 64 (alimonyAdjusted i ap) i.minimumMaintenance ∧
  ltSat 64 i.mehrPaid i.mehrAmount ∧
  geqSat 64 (wifeAssetShare i wbp) 0 ∧
  geqSat 64 (husbandAssetShare i wbp) 0 ∧
  ltSat 64 (monthlyAlimony i ap) (fmul (fmul i.husbandIncome 33) inv100) ∧
  ltSat 64 (monthlyChildSupport i) (fmul (fmul i.husbandIncome 60) inv100) ∧
  geqSat 64 (totalSettlement i ap wbp) 0 ∧
  settlementNonNegative_out i ap wbp = 1

instance (i : Inputs) (ap wbp : Nat) : Decidable (Valid i ap wbp) :=
  inferInstanceAs (Decidable (_ ∧ _ ∧ _ ∧ _ ∧ _ ∧ _ ∧ _ ∧ _ ∧ _ ∧ _ ∧ _ ∧ _))

/-- Concrete inputs for the C4 exhibit: husband income 2,000 PKR monthly,
wife has no income, married 5 years, no children, custody to wife, assets
10,000 PKR to the husband, no Mehr. -/
def inputsC4 : Inputs :=
  ⟨200000, 0, 1000000, 0, 5, 0, 0, 0, 0, 1, 0, 0, 0, 0, 20⟩

/-- Concrete inputs for the C5 exhibit (same household, stated separately
so the two claims use distinct terms). -/
def inputsC5 : Inputs :=
  ⟨200000, 0, 1000000, 0, 5, 0, 0, 0, 0, 1, 0, 0, 0, 0, 20⟩

/-- Concrete inputs for the C8 exhibit: husband has custody
(`custodyToWife = 0`), the wife earns 1,000 PKR monthly and there is one
child. -/
def inputsC8 : Inputs :=
  ⟨200000, 100000, 1000000, 0, 5, 1, 10, 0, 0, 0, 0, 0, 0, 0, 20⟩

end Divorce

/-- C4 (code bug): the claim — and the spec rule it cites — says the hinted
`alimonyPercentage` is re-validated by an explicit defining constraint, so
that only the value `25 + 5 (wife without income) + 3 (marriage over 10
years)` can appear in a valid witness.  The code adds no such constraint:
on concrete inputs whose hint formula evaluates to 30, the assignment
`alimonyPercentage = 0` also extends to a valid witness (with the canonical
`wifeBonusPercentage = 50`), and it changes the public output
`monthlyAlimony` from 60,000 to 0. -/
theorem claim_C4_code_bug :
    Divorce.alimonyPercentageHint Divorce.inputsC4 = 30 ∧
    Divorce.Valid Divorce.inputsC4 30 50 ∧
    Divorce.Valid Divorce.inputsC4 0 50 ∧
    Divorce.monthlyAlimony Divorce.inputsC4 30 = 60000 ∧
    Divorce.monthlyAlimony Divorce.inputsC4 0 = 0 := by decide

/-- C5 (code bug): the claim — and the spec rule it cites — says the asset
share of the wife is clamped at 100% by constraint, so that in every valid
witness `wifeAssetShare` is at most `totalAssets` and a percentage above the
cap is unsatisfiable.  The code neither clamps nor constrains the hinted
`wifeBonusPercentage`: the assignment `wifeBonusPercentage = 200` extends to
a valid witness in which the wife share is twice the total assets. -/
theorem claim_C5_code_bug :
    Divorce.wifeBonusPercentageHint Divorce.inputsC5 = 50 ∧
    Divorce.Valid Divorce.inputsC5 30 200 ∧
    Divorce.totalAssets Divorce.inputsC5 = 1000000 ∧
    Divorce.wifeAssetShare Divorce.inputsC5 200 = 2000000 := by decide

/-- C8 (code bug): the claim — and the spec invariant it cites — says that in
every valid witness `monthlyChildSupport` lies below the 64-bit comparator
range.  On a valid witness with `custodyToWife = 0`, a wife with positive
income and one child, `monthlyChildSupport = childSupportFromHusband -
childSupportFromWife` wraps to `p - 20000`, far above `2^64`, and the
`childSupportReasonable` comparator still outputs 1 on it. -/
theorem claim_C8_code_bug :
    Divorce.Valid Divorce.inputsC8 25 50 ∧
    Divorce.alimonyPercentageHint Divorce.inputsC8 = 25 ∧
    Divorce.monthlyChildSupport Divorce.inputsC8 = p - 20000 ∧
    2 ^ 64 ≤ p - 20000 ∧
    Divorce.childSupportReasonable_out Divorce.inputsC8 = 1 := by decide

namespace Circom

theorem fsub_lt_p (a b : Nat) : fsub a b < p := by
  unfold fsub
  exact Nat.mod_lt _ p_pos

end Circom

/-!
`RaastPaymentValidation` circuit
(`src/circuits/raast_payment/raast_payment.circom`, lines 25-114).  No
hinted signals.  The Poseidon commitment hash only feeds the output
`commitmentHash` and the final constraint
`isValid * (1 - commitmentNonZero) === 0`; the validity chain proved about
here is independent of it.
-/

namespace Raast

structure Inputs where
  amount : Nat
  senderIBAN : Nat
  recipientIBAN : Nat
  dailyTotal : Nat
  salt : Nat
  minAmount : Nat
  maxAmount : Nat
  dailyLimit : Nat

def minCheck_out (r : Inputs) : Nat := geqOut 64 r.amount r.minAmount

def maxCheck_out (r : Inputs) : Nat := leqOut 64 r.amount r.maxAmount

def rangeValid (r : Inputs) : Nat := fmul (minCheck_out r) (maxCheck_out r)

def newDailyTotal (r : Inputs) : Nat := fadd r.dailyTotal r.amount

def dailyCheck_out (r : Inputs) : Nat := leqOut 64 (newDailyTotal r) r.dailyLimit

def isNonZero_out (r : Inputs) : Nat := isZeroOut r.amount

def isPositive (r : Inputs) : Nat := fsub 1 (isNonZero_out r)

def isSelfPayment_out (r : Inputs) : Nat := isEqualOut r.senderIBAN r.recipientIBAN

def isNotSelfPayment (r : Inputs) : Nat := fsub 1 (isSelfPayment_out r)

def valid1 (r : Inputs) : Nat := fmul (rangeValid r) (isPositive r)

def valid2 (r : Inputs) : Nat := fmul (valid1 r) (dailyCheck_out r)

def valid3 (r : Inputs) : Nat := fmul (valid2 r) (isNotSelfPayment r)

def isValid (r : Inputs) : Nat := valid3 r

def compliance1 (r : Inputs) : Nat := fmul (rangeValid r) (dailyCheck_out r)

def complianceFlag (r : Inputs) : Nat := compliance1 r

end Raast

/-- C6: for every input of the `RaastPaymentValidation` circuit within the
64-bit comparator range, the public output `isValid` is 1 iff
`minAmount ≤ amount ≤ maxAmount`, `dailyTotal + amount ≤ dailyLimit`,
`amount ≠ 0` and `senderIBAN ≠ recipientIBAN`; in particular `amount = 0`
forces `isValid = 0` whatever the other fields are. -/
theorem claim_C6 (r : Raast.Inputs)
    (hamt : r.amount < 2 ^ 64) (hmin : r.minAmount < 2 ^ 64)
    (hmax : r.maxAmount < 2 ^ 64) (hdl : r.dailyLimit < 2 ^ 64)
    (hdt : r.dailyTotal + r.amount < 2 ^ 64)
    (hs : r.senderIBAN < p) (hr : r.recipientIBAN < p) :
    (Raast.isValid r = 1 ↔
      (r.minAmount ≤ r.amount ∧ r.amount ≤ r.maxAmount ∧
       r.dailyTotal + r.amount ≤ r.dailyLimit ∧ r.amount ≠ 0 ∧
       r.senderIBAN ≠ r.recipientIBAN)) ∧
    (r.amount = 0 → Raast.isValid r = 0) := by
  have hp := p_large
  have hminC : Raast.minCheck_out r = if r.minAmount ≤ r.amount then 1 else 0 := by
    rw [Raast.minCheck_out, geqOut_eq hamt hmin]
  have hmaxC : Raast.maxCheck_out r = if r.amount ≤ r.maxAmount then 1 else 0 := by
    rw [Raast.maxCheck_out, leqOut_eq hamt hmax]
  have hdC : Raast.dailyCheck_out r =
      if r.dailyTotal + r.amount ≤ r.dailyLimit then 1 else 0 := by
    rw [Raast.dailyCheck_out, Raast.newDailyTotal, fadd_small (by omega),
      leqOut_eq hdt hdl]
  have hposC : Raast.isPositive r = if r.amount = 0 then 0 else 1 := by
    rw [Raast.isPositive, Raast.isNonZero_out, isZeroOut,
      Nat.mod_eq_of_lt (show r.amount < p by omega)]
    by_cases h : r.amount = 0
    · rw [if_pos h, if_pos h, fsub_one_one]
    · rw [if_neg h, if_neg h, fsub_one_zero]
  have hselfC : Raast.isNotSelfPayment r =
      if r.senderIBAN = r.recipientIBAN then 0 else 1 := by
    rw [Raast.isNotSelfPayment, Raast.isSelfPayment_out, isEqualOut, isZeroOut,
      Nat.mod_eq_of_lt (fsub_lt_p _ _)]
    by_cases h : r.senderIBAN = r.recipientIBAN
    · rw [if_pos ((fsub_eq_zero_iff hr hs).mpr h.symm), if_pos h, fsub_one_one]
    · rw [if_neg (fun hz => h ((fsub_eq_zero_iff hr hs).mp hz).symm), if_neg h,
        fsub_one_zero]
  constructor
  · rw [Raast.isValid, Raast.valid3, Raast.valid2, Raast.valid1, Raast.rangeValid,
      hminC, hmaxC, hdC, hposC, hselfC]
    constructor
    · intro h
      split_ifs at h with h1 h2 h3 h4 h5
      all_goals first
        | exact absurd h (by decide)
        | (refine ⟨?_, ?_, ?_, ?_, ?_⟩ <;> assumption)
    · intro hc
      obtain ⟨c1, c2, c3, c4, c5⟩ := hc
      rw [if_pos c1, if_pos c2, if_neg c4, if_pos c3, if_neg c5]
      decide
  · intro h0
    rw [Raast.isValid, Raast.valid3, Raast.valid2, Raast.valid1, Raast.rangeValid,
      hposC, if_pos h0, fmul_zero_right, fmul_zero_left, fmul_zero_left]

/-- C6 witness: a concrete in-range payment satisfying all four conditions
has `isValid = 1`, and zeroing its amount flips `isValid` to 0. -/
theorem claim_C6_witness :
    Raast.isValid ⟨100, 1, 2, 0, 0, 1, 1000, 5000⟩ = 1 ∧
    Raast.isValid ⟨0, 1, 2, 0, 0, 1, 1000, 5000⟩ = 0 :=
  ⟨(claim_C6 ⟨100, 1, 2, 0, 0, 1, 1000, 5000⟩ (by decide) (by decide) (by decide)
      (by decide) (by decide) (by decide) (by decide)).1.mpr (by decide),
   (claim_C6 ⟨0, 1, 2, 0, 0, 1, 1000, 5000⟩ (by decide) (by decide) (by decide)
      (by decide) (by decide) (by decide) (by decide)).2 rfl⟩

/-!
`PropertyTransfer` circuit
(`src/circuits/property_transfer/property_transfer.circom`, lines 23-165).
One hinted signal: `sdRate` (line 118, `<--`), feeding `stampDuty` and
`totalTax`; the eligibility chain is hint-free.
-/

namespace Property

structure Inputs where
  purchasePrice : Nat
  originalPurchasePrice : Nat
  ownershipYears : Nat
  propertyType : Nat
  isFirstProperty : Nat
  buyerAge : Nat
  sellerCNIC : Nat
  buyerCNIC : Nat

def capitalGain (q : Inputs) : Nat := fsub q.purchasePrice q.originalPurchasePrice

def gainValid_out (q : Inputs) : Nat :=
  geqOut 64 q.purchasePrice q.originalPurchasePrice

def maxHoldingPeriod : Nat := 15

def yearsCapped_out (q : Inputs) : Nat := ltOut 64 q.ownershipYears maxHoldingPeriod

def effectiveYears (q : Inputs) : Nat :=
  fadd (fmul (yearsCapped_out q) q.ownershipYears)
    (fmul (fsub 1 (yearsCapped_out q)) maxHoldingPeriod)

def exemptionPercentage (q : Inputs) : Nat :=
  fmul (fmul (effectiveYears q) 100) inv15

def isResidential_out (q : Inputs) : Nat := isEqualOut q.propertyType 0

def firstPropertyExemption (q : Inputs) : Nat :=
  fmul (fmul q.isFirstProperty (isResidential_out q)) 50

def isSenior_out (q : Inputs) : Nat := geqOut 64 q.buyerAge 60

def seniorCitizenExemption (q : Inputs) : Nat := fmul (isSenior_out q) 25

def totalExemption (q : Inputs) : Nat :=
  fadd (fadd (exemptionPercentage q) (firstPropertyExemption q))
    (seniorCitizenExemption q)

def exemptionCapped_out (q : Inputs) : Nat := ltOut 64 (totalExemption q) 100

def effectiveExemption (q : Inputs) : Nat :=
  fadd (fmul (exemptionCapped_out q) (totalExemption q))
    (fmul (fsub 1 (exemptionCapped_out q)) 100)

def adjustedGain (q : Inputs) : Nat :=
  fmul (fmul (capitalGain q) (fsub 100 (effectiveExemption q))) inv100

def capitalGainsTax (q : Inputs) : Nat := fmul (fmul (adjustedGain q) 15) inv100

def stampDuty (q : Inputs) (sdRate : Nat) : Nat :=
  fmul (fmul q.purchasePrice sdRate) inv100

def totalTax (q : Inputs) (sdRate : Nat) : Nat :=
  fadd (capitalGainsTax q) (stampDuty q sdRate)

def buyerSellerDifferent_out (q : Inputs) : Nat :=
  isEqualOut q.buyerCNIC q.sellerCNIC

def differentParties (q : Inputs) : Nat := fsub 1 (buyerSellerDifferent_out q)

def pricePositive_out (q : Inputs) : Nat := gtOut 64 q.purchasePrice 0

def validTransfer (q : Inputs) : Nat :=
  fmul (fmul (gainValid_out q) (differentParties q)) (pricePositive_out q)

def suspiciouslyHigh_out (q : Inputs) : Nat :=
  ltOut 64 q.purchasePrice (fmul q.originalPurchasePrice 10)

def amlCheckPassed (q : Inputs) : Nat := suspiciouslyHigh_out q

def isEligible (q : Inputs) : Nat := fmul (validTransfer q) (amlCheckPassed q)

end Property

/-- C7: for every input of the `PropertyTransfer` circuit within the 64-bit
comparator range, the public output `isEligible` is 1 only if
`purchasePrice < 10 * originalPurchasePrice` (the fraud ratio check) and
`buyerCNIC` differs from `sellerCNIC` (the negated `IsEqual` check); if
either condition fails, `isEligible = 0`. -/
theorem claim_C7 (q : Property.Inputs)
    (hpp : q.purchasePrice < 2 ^ 64)
    (hopp10 : q.originalPurchasePrice * 10 < 2 ^ 64)
    (hb : q.buyerCNIC < p) (hs : q.sellerCNIC < p) :
    (Property.isEligible q = 1 →
      q.purchasePrice < 10 * q.originalPurchasePrice ∧ q.buyerCNIC ≠ q.sellerCNIC) ∧
    ((10 * q.originalPurchasePrice ≤ q.purchasePrice ∨ q.buyerCNIC = q.sellerCNIC) →
      Property.isEligible q = 0) := by
  have hp := p_large
  have hgain : Property.gainValid_out q =
      if q.originalPurchasePrice ≤ q.purchasePrice then 1 else 0 := by
    rw [Property.gainValid_out, geqOut_eq hpp (by omega)]
  have hdiffC : Property.differentParties q =
      if q.buyerCNIC = q.sellerCNIC then 0 else 1 := by
    rw [Property.differentParties, Property.buyerSellerDifferent_out, isEqualOut,
      isZeroOut, Nat.mod_eq_of_lt (fsub_lt_p _ _)]
    by_cases h : q.buyerCNIC = q.sellerCNIC
    · rw [if_pos ((fsub_eq_zero_iff hs hb).mpr h.symm), if_pos h, fsub_one_one]
    · rw [if_neg (fun hz => h ((fsub_eq_zero_iff hs hb).mp hz).symm), if_neg h,
        fsub_one_zero]
  have hppos : Property.pricePositive_out q =
      if 0 < q.purchasePrice then 1 else 0 := by
    rw [Property.pricePositive_out, gtOut, ltOut_eq (by norm_num) (by omega)]
  have hsusp : Property.suspiciouslyHigh_out q =
      if q.purchasePrice < q.originalPurchasePrice * 10 then 1 else 0 := by
    rw [Property.suspiciouslyHigh_out, fmul_small (by omega), ltOut_eq hpp (by omega)]
  constructor
  · intro h
    rw [Property.isEligible, Property.validTransfer, Property.amlCheckPassed,
      hgain, hdiffC, hppos, hsusp] at h
    split_ifs at h with h1 h2 h3 h4
    all_goals first
      | exact absurd h (by decide)
      | exact ⟨by omega, h2⟩
  · intro hc
    rw [Property.isEligible, Property.validTransfer, Property.amlCheckPassed,
      hgain, hdiffC, hppos, hsusp]
    rcases hc with hc | hc
    · rw [if_neg (show ¬ q.purchasePrice < q.originalPurchasePrice * 10 by omega),
        fmul_zero_right]
    · rw [if_pos hc, fmul_zero_right, fmul_zero_left, fmul_zero_left]

/-- C7 witness: on a concrete eligible transfer the theorem instantiates to
the two claimed conditions. -/
theorem claim_C7_witness :
    (5000 : Nat) < 10 * 1000 ∧ (2 : Nat) ≠ 1 :=
  (claim_C7 ⟨5000, 1000, 0, 0, 0, 30, 1, 2⟩ (by decide) (by decide) (by decide)
    (by decide)).1 (by decide)
